import Mathlib

/-!
Shallow embedding of the fedora-infra/contribution-stats repository.

The repository has three Python scripts:
  * `collect-data-from-datagrepper.py` and `collect-data-from-db.py` ingest
    Fedora messaging events into a SQLite database with four tables
    (`commits`, `orphaned`, `adopted`, `retired`), each with columns
    (msgid PRIMARY KEY, timestamp, year, month, by, package);
  * `query-monthly-data.py` computes monthly statistics from that database
    and writes one CSV row per month.

This file embeds the SQL tables as Lean lists of rows and each query
function as a Lean function over them, then settles the specification
claims against those definitions.
-/

/-- A calendar date (proleptic Gregorian).  Python `datetime.date` restricted
to the fields the scripts use. -/
structure Date where
  year : Nat
  month : Nat
  day : Nat
deriving DecidableEq, Repr

/-- Lexicographic comparison of dates.  For valid dates this coincides with
chronological order, and with SQLite/ISO-8601 string comparison of
zero-padded `YYYY-MM-DD` strings. -/
def dateLe (a b : Date) : Bool :=
  a.year < b.year ||
    (a.year == b.year &&
      (a.month < b.month || (a.month == b.month && a.day ≤ b.day)))

/-- Gregorian leap-year predicate. -/
def isLeap (y : Nat) : Bool :=
  (y % 4 == 0 && y % 100 != 0) || y % 400 == 0

/-- Number of days in month `m` of year `y` (months numbered 1..12). -/
def daysInMonth (y m : Nat) : Nat :=
  if m == 2 then (if isLeap y then 29 else 28)
  else if m == 4 || m == 6 || m == 9 || m == 11 then 30
  else 31

/-- Days in year `y` strictly before month `m`. -/
def daysBefore (y m : Nat) : Nat :=
  ((List.range (m - 1)).map (fun i => daysInMonth y (i + 1))).sum

/-- Rata-die style day number of a date: day 1 is 0001-01-01.  Differences of
`dayNumber` give the day spans computed by Python `datetime` subtraction. -/
def dayNumber (d : Date) : Nat :=
  365 * (d.year - 1) + (d.year - 1) / 4 - (d.year - 1) / 100 + (d.year - 1) / 400
    + daysBefore d.year d.month + d.day

/-- The day after `d`. -/
def nextDay (d : Date) : Date :=
  if d.day < daysInMonth d.year d.month then ⟨d.year, d.month, d.day + 1⟩
  else if d.month < 12 then ⟨d.year, d.month + 1, 1⟩
  else ⟨d.year + 1, 1, 1⟩

/-- Add `n` days to a date; Python `date + timedelta(days=n)`. -/
def addDays (d : Date) : Nat → Date
  | 0 => d
  | n + 1 => addDays (nextDay d) n

/-- A point in time: a date plus the second-of-day.  Python `datetime`
restricted to what the scripts observe (the scripts compare timestamps and
subtract them; sub-second precision is irrelevant to every claim). -/
structure Timestamp where
  date : Date
  secs : Nat
deriving DecidableEq, Repr

/-- Seconds since the epoch of `dayNumber`, as an integer. -/
def secondsOf (t : Timestamp) : Int :=
  (dayNumber t.date : Int) * 86400 + t.secs

/-- The `.days` field of the Python timedelta `a - b` for datetimes `a`, `b`:
floor division of the seconds difference by 86400. -/
def daysBetween (a b : Timestamp) : Int :=
  Int.fdiv (secondsOf a - secondsOf b) 86400

/-- One row of any of the four SQLite tables.  The SQL column `"by"` is a
Lean keyword, so it is called `actor` here (the spec's name for it). -/
structure Row where
  msgid : String
  ts : Timestamp
  year : Nat
  month : Nat
  actor : String
  package : String
deriving DecidableEq, Repr

/-- The SQLite database: the four event tables. -/
structure DB where
  commits : List Row
  orphaned : List Row
  adopted : List Row
  retired : List Row
deriving DecidableEq, Repr

/-- `month_filter(month)` of query-monthly-data.py:
`year = {month.year} AND month = {month.month}`. -/
def monthFilter (month : Date) (r : Row) : Bool :=
  r.year == month.year && r.month == month.month

/-- The SQL conditions `timestamp > 'YYYY-MM-DD'` (in `_get_months_left`) and
`timestamp >= 'YYYY-MM-DD'` (in `_committers_in_future_months`) compare the
stored full-isoformat string `YYYY-MM-DDTHH:MM:SS` with a bare date string.
Lexicographically, any timestamp whose date is `cut` is strictly greater than
the 10-character string for `cut` (it extends it with `T...`), so BOTH
conditions hold exactly when the timestamp's date is ≥ `cut`. -/
def tsOnOrAfter (cut : Date) (r : Row) : Bool :=
  dateLe cut r.ts.date

/-- The SQL expression `year || '-' || month` (no zero padding). -/
def monthKey (r : Row) : String :=
  toString r.year ++ "-" ++ toString r.month

/-- `_get_months_left`: `SELECT COUNT(DISTINCT(year || '-' || month)) FROM
commits WHERE timestamp > ?` with the first day of `month`, minus 1.
Result is an `Int` because the count can be 0, giving -1. -/
def get_months_left (db : DB) (month : Date) : Int :=
  (((db.commits.filter (tsOnOrAfter month)).map monthKey).dedup.length : Int) - 1

/-- `orphaned(db, month)`: `SELECT COUNT(*) FROM orphaned WHERE` bucket = m. -/
def orphaned (db : DB) (month : Date) : Nat :=
  (db.orphaned.filter (monthFilter month)).length

/-- `orphaners(db, month)`: `SELECT COUNT(DISTINCT(by)) FROM orphaned`. -/
def orphaners (db : DB) (month : Date) : Nat :=
  ((db.orphaned.filter (monthFilter month)).map (fun r => r.actor)).dedup.length

/-- `adopted(db, month)`: `SELECT COUNT(*) FROM adopted WHERE` bucket = m. -/
def adopted (db : DB) (month : Date) : Nat :=
  (db.adopted.filter (monthFilter month)).length

/-- `adopters(db, month)`: `SELECT COUNT(DISTINCT(by)) FROM adopted`. -/
def adopters (db : DB) (month : Date) : Nat :=
  ((db.adopted.filter (monthFilter month)).map (fun r => r.actor)).dedup.length

/-- `retired(db, month)`: `SELECT COUNT(DISTINCT(o.package)) FROM orphaned o
JOIN retired r ON o.package = r.package WHERE o.year = ? AND o.month = ?`. -/
def retired (db : DB) (month : Date) : Nat :=
  (((db.orphaned.filter (monthFilter month)).filter
      (fun o => db.retired.any (fun r => r.package == o.package))).map
    (fun r => r.package)).dedup.length

/-- `committed(db, month)`: `SELECT COUNT(DISTINCT(package)) FROM commits`. -/
def committed (db : DB) (month : Date) : Nat :=
  ((db.commits.filter (monthFilter month)).map (fun r => r.package)).dedup.length

/-- `committers(db, month)`: `SELECT COUNT(DISTINCT(by)) FROM commits`. -/
def committers (db : DB) (month : Date) : Nat :=
  ((db.commits.filter (monthFilter month)).map (fun r => r.actor)).dedup.length

/-- The `next_month` computation of `_committers_in_future_months`:
`month + timedelta(days=31)` followed by `replace(day=1)`. -/
def nextMonthDate (month : Date) : Date :=
  let nd := addDays month 31
  ⟨nd.year, nd.month, 1⟩

/-- `_committers_in_future_months(db, month, committers)`:
`SELECT "by" FROM commits WHERE "by" IN (...) AND timestamp >= ? GROUP BY "by"`
with the first day of the month after `month`.  `GROUP BY "by"` yields each
qualifying actor once (the output order is irrelevant: both callers convert
the result to a set). -/
def committers_in_future_months (db : DB) (month : Date) (cs : List String) :
    List String :=
  ((db.commits.filter
      (fun r => cs.contains r.actor && tsOnOrAfter (nextMonthDate month) r)).map
    (fun r => r.actor)).dedup

/-- `orphaners_gone(db, month)`.  `orphaners_this_month` is duplicate-free
(`SELECT DISTINCT`), so the Python `len(set(orphaners_this_month) -
set(committers_in_future_months))` is the number of its members not in the
future-committers list, modelled as a filtered length. -/
def orphaners_gone (db : DB) (month : Date) : Option Nat :=
  if get_months_left db month ≤ 3 then none
  else
    let othis := ((db.orphaned.filter (monthFilter month)).map
      (fun r => r.actor)).dedup
    let future := committers_in_future_months db month othis
    some ((othis.filter (fun a => !(future.contains a))).length)

/-- `committers_gone(db, month)`: same computation with `commits` as the
bucket collection. -/
def committers_gone (db : DB) (month : Date) : Option Nat :=
  if get_months_left db month ≤ 3 then none
  else
    let cthis := ((db.commits.filter (monthFilter month)).map
      (fun r => r.actor)).dedup
    let future := committers_in_future_months db month cthis
    some ((cthis.filter (fun a => !(future.contains a))).length)

/-- The orphan-candidate condition of `adoption`'s inner query:
`package = ? AND date('year-month-01') <= date('adoptionyear-adoptionmonth-01')`,
i.e. the orphan row's bucket start is on or before the adoption bucket start. -/
def orphanCandidate (month : Date) (pkg : String) (o : Row) : Bool :=
  o.package == pkg && dateLe ⟨o.year, o.month, 1⟩ ⟨month.year, month.month, 1⟩

/-- The `ORDER BY year DESC, month DESC` + `fetchone()` of `adoption`: the
first row (in table order) whose (year, month) bucket is lexicographically
maximal.  SQLite does not specify the order of rows with equal sort keys;
this models the tie as first-in-table-order. -/
def chooseMaxBucket : List Row → Option Row
  | [] => none
  | r :: rs =>
    match chooseMaxBucket rs with
    | none => some r
    | some best =>
      if r.year < best.year || (r.year == best.year && r.month < best.month) then
        some best
      else some r

/-- The `adoption_times` list built by the loop of `adoption(db, month)`.
The outer query `SELECT DISTINCT(package), timestamp FROM adopted WHERE
bucket = m` yields the distinct (package, timestamp) pairs (SQLite applies
DISTINCT to the whole select list).  For each pair whose inner orphan query
returns a row, the loop appends the sample
`(datetime(adopt) - datetime(orphan)).days`. -/
def adoption_times (db : DB) (month : Date) : List Int :=
  let pairs := ((db.adopted.filter (monthFilter month)).map
    (fun r => (r.package, r.ts))).dedup
  pairs.foldl
    (fun acc pt =>
      match chooseMaxBucket (db.orphaned.filter (orphanCandidate month pt.1)) with
      | none => acc
      | some o => acc ++ [daysBetween pt.2 o.ts]) ([] : List Int)

/-- `adoption(db, month)`: `statistics.mean(adoption_times) if adoption_times
else None`.  The mean of the `int` samples is modelled as the exact rational
sum/length. -/
def adoption (db : DB) (month : Date) : Option Rat :=
  if (adoption_times db month).isEmpty then none
  else some (((adoption_times db month).sum : Rat) /
    ((adoption_times db month).length : Rat))

/-- Round `100 * (num/den)` (with `den > 0`) to the nearest integer, ties to
even: the rounding of Python's `f"{x:.02f}"` on exactly-representable
values, computed on the numerator and denominator directly. -/
def roundCentsHalfEven (num : Int) (den : Int) : Int :=
  let f := Int.fdiv (100 * num) den
  let r := 100 * num - f * den
  if 2 * r < den then f
  else if den < 2 * r then f + 1
  else if f % 2 = 0 then f else f + 1

/-- Left-pad a numeral to two digits. -/
def pad2 (n : Nat) : String :=
  if n < 10 then "0" ++ toString n else toString n

/-- Python `f"{x:.02f}"`: fixed-point rendering with two decimal places. -/
def formatTwoDec (q : Rat) : String :=
  let n := roundCentsHalfEven q.num q.den
  let sign := if n < 0 then "-" else ""
  let a := n.natAbs
  sign ++ toString (a / 100) ++ "." ++ pad2 (a % 100)

/-- The adoption-latency cell of the report row:
`f"{avg_adoption_time:.02f}" if avg_adoption_time else ""`.
Python truthiness: `None` and `0.0` are both falsy. -/
def formatLatency (avg : Option Rat) : String :=
  match avg with
  | none => ""
  | some q => if q == 0 then "" else formatTwoDec q

/-- How `csv.writer` renders the `orphaners_gone`/`committers_gone` cell:
`None` becomes the empty field, an integer becomes its numeral. -/
def formatGone : Option Nat → String
  | none => ""
  | some n => toString n

/-- `month.strftime("%Y-%m")`, the first report column. -/
def monthLabel (month : Date) : String :=
  toString month.year ++ "-" ++ pad2 month.month

/-- One data row written by `main` of query-monthly-data.py, as the list of
rendered CSV fields (`csv.writer` renders ints with `str`, `None` as the
empty field). -/
def reportRow (db : DB) (month : Date) : List String :=
  [ monthLabel month,
    toString (orphaned db month),
    toString (orphaners db month),
    toString (retired db month),
    toString (adopted db month),
    toString (adopters db month),
    formatLatency (adoption db month),
    toString (committed db month),
    toString (committers db month),
    formatGone (orphaners_gone db month),
    formatGone (committers_gone db month) ]

/-- The per-file change statistics of a commit payload
(`message["body"]["commit"]["stats"]["files"][path]`). -/
structure FileStat where
  additions : Nat
  deletions : Nat
deriving DecidableEq, Repr

/-- The part of `message["body"]["commit"]` that `is_retirement` reads: the
optional `stats.files` map (a JSON object, here an association list) and the
target `branch`. -/
structure CommitInfo where
  stats_files : Option (List (String × FileStat))
  branch : String
deriving DecidableEq, Repr

/-- The part of a datagrepper/datanommer message that `is_retirement` reads:
the optional `body.commit` object. -/
structure CommitMessage where
  commit : Option CommitInfo
deriving DecidableEq, Repr

/-- Lookup of `files["dead.package"]` in the change-statistics map. -/
def lookupDeadPackage (files : List (String × FileStat)) : Option FileStat :=
  (files.find? (fun f => f.1 == "dead.package")).map (fun f => f.2)

/-- `is_retirement(message)` (identical in collect-data-from-datagrepper.py
and collect-data-from-db.py).  A `KeyError` anywhere on the path
`body.commit.stats.files["dead.package"]` is caught and yields `False`;
then `additions == 0 and deletions != 0` bails; then the branch must be
`main` or `rawhide`. -/
def is_retirement (message : CommitMessage) : Bool :=
  match message.commit with
  | none => false
  | some c =>
    match c.stats_files with
    | none => false
    | some files =>
      match lookupDeadPackage files with
      | none => false
      | some dead_package =>
        if dead_package.additions == 0 && dead_package.deletions != 0 then false
        else if !(c.branch == "main" || c.branch == "rawhide") then false
        else true

/-- The row built by `insert_message` from a normalized Event Record: the
`year` and `month` columns are taken from the same parsed datetime as the
stored `timestamp` column. -/
def mkRow (msgid : String) (msg_date : Timestamp) (agent pkg : String) : Row :=
  ⟨msgid, msg_date, msg_date.date.year, msg_date.date.month, agent, pkg⟩

/-- `insert_message(table, db, message)` at the level of a normalized Event
Record (id, parsed datetime, actor, package): the `INSERT` raises
`sqlite3.IntegrityError` when a row with the same `msgid` (the PRIMARY KEY)
exists, and the handler swallows it, leaving the table unchanged; otherwise
the row is appended.  The function is total: no error reaches the caller. -/
def insert_message (table : List Row) (msgid : String) (msg_date : Timestamp)
    (agent pkg : String) : List Row :=
  if table.any (fun r => r.msgid == msgid) then table
  else table ++ [mkRow msgid msg_date agent pkg]

/-- One normalized ingestion operation: the arguments of one
`insert_message` call. -/
structure InsertOp where
  msgid : String
  msg_date : Timestamp
  agent : String
  package : String
deriving DecidableEq, Repr

/-- A sequence of `insert_message` calls against one table. -/
def insertAll (table : List Row) (ops : List InsertOp) : List Row :=
  ops.foldl (fun t op => insert_message t op.msgid op.msg_date op.agent op.package)
    table

/-- The invariant of claim C8: the denormalized `year`/`month` columns agree
with the calendar year and month of the `timestamp` column. -/
def rowConsistent (r : Row) : Bool :=
  r.year == r.ts.date.year && r.month == r.ts.date.month

/-- Survivorship metric as amended for claim C1: the number of distinct
actors of `coll` events in bucket `month` that have no event in the
`commits` collection timestamped on or after the first day of the next
month.  `orphaners_gone`/`committers_gone` both compute this, instantiated
at `db.orphaned` and `db.commits` respectively. -/
def gone_spec (db : DB) (coll : List Row) (month : Date) : Nat :=
  (((coll.filter (monthFilter month)).map (fun r => r.actor)).dedup.filter
    (fun a => !(db.commits.any
      (fun r => r.actor == a && tsOnOrAfter (nextMonthDate month) r)))).length

/-- The survivorship metric exactly as claim C1 words it for `orphaned`:
distinct actors of `orphaned` events in bucket `month` with zero activity in
the `orphaned` collection itself at or after the next month's start. -/
def orphaners_gone_claim (db : DB) (month : Date) : Option Nat :=
  if get_months_left db month ≤ 3 then none
  else
    some ((((db.orphaned.filter (monthFilter month)).map
        (fun r => r.actor)).dedup.filter
      (fun a => !(db.orphaned.any
        (fun r => r.actor == a && tsOnOrAfter (nextMonthDate month) r)))).length)

/-- The adoption-latency samples as amended for claim C3: over every
distinct (package, timestamp) pair adopted in bucket `month`, match the most
recent qualifying orphan event (bucket start ≤ adoption bucket start, latest
year then month, first-in-table-order among same-bucket ties); each matched
pair contributes the whole-day span, which may be negative when the matched
orphan is chronologically later than the adoption; unmatched pairs are
dropped. -/
def adoption_samples_spec (db : DB) (month : Date) : List Int :=
  (((db.adopted.filter (monthFilter month)).map
      (fun r => (r.package, r.ts))).dedup).filterMap
    (fun pt =>
      (chooseMaxBucket (db.orphaned.filter (orphanCandidate month pt.1))).map
        (fun o => daysBetween pt.2 o.ts))

/-- The adoption-latency statistic as amended for claim C3: absent exactly
when `adoption_samples_spec` is empty, otherwise the arithmetic mean of the
samples. -/
def adoption_latency_spec (db : DB) (month : Date) : Option Rat :=
  if adoption_samples_spec db month = [] then none
  else some (((adoption_samples_spec db month).sum : Rat) /
    ((adoption_samples_spec db month).length : Rat))

/-- The number of calendar months of data strictly after `month`, as claim
C4 counts them: distinct (year, month) commit buckets lexicographically
greater than `month`'s bucket. -/
def months_of_data_after (db : DB) (month : Date) : Nat :=
  ((db.commits.filter
      (fun r => month.year < r.year ||
        (month.year == r.year && month.month < r.month))).map monthKey).dedup.length

/-- Example store for claim C1: `alice` orphans packages in 2024-01 and
2024-06 (activity in the `orphaned` collection after 2024-01), never
commits; `bob` commits each month 2024-01 .. 2024-05, so the lookahead
guard passes for 2024-01. -/
def exDB1 : DB :=
  { commits :=
      [⟨"c1", ⟨⟨2024, 1, 15⟩, 0⟩, 2024, 1, "bob", "p"⟩,
       ⟨"c2", ⟨⟨2024, 2, 15⟩, 0⟩, 2024, 2, "bob", "p"⟩,
       ⟨"c3", ⟨⟨2024, 3, 15⟩, 0⟩, 2024, 3, "bob", "p"⟩,
       ⟨"c4", ⟨⟨2024, 4, 15⟩, 0⟩, 2024, 4, "bob", "p"⟩,
       ⟨"c5", ⟨⟨2024, 5, 15⟩, 0⟩, 2024, 5, "bob", "p"⟩],
    orphaned :=
      [⟨"o1", ⟨⟨2024, 1, 10⟩, 0⟩, 2024, 1, "alice", "foo"⟩,
       ⟨"o2", ⟨⟨2024, 6, 10⟩, 0⟩, 2024, 6, "alice", "bar"⟩],
    adopted := [], retired := [] }

/-- Example store for claim C3: package `foo` is orphaned on 2024-03-20 and
adopted on 2024-03-05, both in bucket 2024-03, so the month-truncated match
pairs the adoption with a chronologically later orphan event. -/
def exDB3 : DB :=
  { commits := [], retired := [],
    orphaned := [⟨"o1", ⟨⟨2024, 3, 20⟩, 0⟩, 2024, 3, "alice", "foo"⟩],
    adopted := [⟨"a1", ⟨⟨2024, 3, 5⟩, 0⟩, 2024, 3, "bernie", "foo"⟩] }

/-- Example store for claim C4: commit data exists in exactly the four
months 2024-02 .. 2024-05 and in no other month; 2024-01 itself has none. -/
def exDB4 : DB :=
  { commits :=
      [⟨"c2", ⟨⟨2024, 2, 15⟩, 0⟩, 2024, 2, "bob", "p"⟩,
       ⟨"c3", ⟨⟨2024, 3, 15⟩, 0⟩, 2024, 3, "bob", "p"⟩,
       ⟨"c4", ⟨⟨2024, 4, 15⟩, 0⟩, 2024, 4, "bob", "p"⟩,
       ⟨"c5", ⟨⟨2024, 5, 15⟩, 0⟩, 2024, 5, "bob", "p"⟩],
    orphaned := [], adopted := [], retired := [] }

/-- Example store for claim C5: package `foo` is orphaned and adopted at the
same instant, so the adoption-latency mean is present and equal to 0. -/
def exDB5 : DB :=
  { commits := [], retired := [],
    orphaned := [⟨"o1", ⟨⟨2024, 2, 10⟩, 0⟩, 2024, 2, "alice", "foo"⟩],
    adopted := [⟨"a1", ⟨⟨2024, 2, 10⟩, 0⟩, 2024, 2, "bernie", "foo"⟩] }

/-- Example store for claim C6: exactly one `orphaned` event for `foo` dated
2024-01-15 and one `adopted` event for `foo` dated 2024-03-10. -/
def exDB6 : DB :=
  { commits := [], retired := [],
    orphaned := [⟨"o1", ⟨⟨2024, 1, 15⟩, 0⟩, 2024, 1, "alice", "foo"⟩],
    adopted := [⟨"a1", ⟨⟨2024, 3, 10⟩, 0⟩, 2024, 3, "bernie", "foo"⟩] }

/-- Example store for claim C10: buckets 2024-01 of `orphaned` and `commits`
are empty while five later months of commit data make the lookahead guard
pass for 2024-01. -/
def exDB10 : DB :=
  { commits :=
      [⟨"c2", ⟨⟨2024, 2, 15⟩, 0⟩, 2024, 2, "bob", "p"⟩,
       ⟨"c3", ⟨⟨2024, 3, 15⟩, 0⟩, 2024, 3, "bob", "p"⟩,
       ⟨"c4", ⟨⟨2024, 4, 15⟩, 0⟩, 2024, 4, "bob", "p"⟩,
       ⟨"c5", ⟨⟨2024, 5, 15⟩, 0⟩, 2024, 5, "bob", "p"⟩,
       ⟨"c6", ⟨⟨2024, 6, 15⟩, 0⟩, 2024, 6, "bob", "p"⟩],
    orphaned := [], adopted := [], retired := [] }

/-- Example row and single-row table for the claim C7 witness. -/
def exRow7 : Row := ⟨"m1", ⟨⟨2024, 4, 1⟩, 3600⟩, 2024, 4, "alice", "foo"⟩

/-- Single-row table containing `exRow7`. -/
def exTable7 : List Row := [exRow7]

/-- C6: on an Event Store with exactly one `orphaned` event for `foo` dated
2024-01-15 and one `adopted` event for `foo` dated 2024-03-10, the adoption
latency of bucket 2024-03 is 55 days and the report row renders it as
"55.00" (with every other statistic of that bucket rendered as shown). -/
theorem claim_C6 :
    adoption exDB6 ⟨2024, 3, 1⟩ = some 55 ∧
    reportRow exDB6 ⟨2024, 3, 1⟩ =
      ["2024-03", "0", "0", "0", "1", "1", "55.00", "0", "0", "", ""] := by
  have ht : adoption_times exDB6 ⟨2024, 3, 1⟩ = [55] := by decide
  have ha : adoption exDB6 ⟨2024, 3, 1⟩ = some 55 := by
    unfold adoption
    rw [ht]
    norm_num
  refine ⟨ha, ?_⟩
  unfold reportRow
  rw [ha]
  decide

/-- C9: for every store and month, the event count of the `orphaned` bucket
is at least its distinct-actor count, and likewise for `adopted`. -/
theorem claim_C9 (db : DB) (month : Date) :
    orphaners db month ≤ orphaned db month ∧
    adopters db month ≤ adopted db month := by
  constructor
  · calc ((db.orphaned.filter (monthFilter month)).map (fun r => r.actor)).dedup.length
        ≤ ((db.orphaned.filter (monthFilter month)).map (fun r => r.actor)).length :=
          (List.dedup_sublist _).length_le
      _ = (db.orphaned.filter (monthFilter month)).length := List.length_map _ _
  · calc ((db.adopted.filter (monthFilter month)).map (fun r => r.actor)).dedup.length
        ≤ ((db.adopted.filter (monthFilter month)).map (fun r => r.actor)).length :=
          (List.dedup_sublist _).length_le
      _ = (db.adopted.filter (monthFilter month)).length := List.length_map _ _

/-- C7: inserting a record whose `msgid` already exists in the table is a
silent no-op: the table (hence its row count and every stored field of the
first-inserted row) is unchanged, and `insert_message` is a total function,
so no error reaches the caller. -/
theorem claim_C7 (table : List Row) (msgid : String) (msg_date : Timestamp)
    (agent pkg : String) (h : ∃ r ∈ table, r.msgid = msgid) :
    insert_message table msgid msg_date agent pkg = table ∧
    (insert_message table msgid msg_date agent pkg).length = table.length := by
  have hany : table.any (fun r => r.msgid == msgid) = true := by
    rcases h with ⟨r, hr, he⟩
    simp only [List.any_eq_true, beq_iff_eq]
    exact ⟨r, hr, he⟩
  constructor
  · simp [insert_message, hany]
  · simp [insert_message, hany]

/-- Witness for C7 at a concrete table and record. -/
theorem claim_C7_witness :
    insert_message exTable7 "m1" ⟨⟨2024, 5, 2⟩, 0⟩ "eve" "bar" = exTable7 ∧
    (insert_message exTable7 "m1" ⟨⟨2024, 5, 2⟩, 0⟩ "eve" "bar").length =
      exTable7.length :=
  claim_C7 exTable7 "m1" ⟨⟨2024, 5, 2⟩, 0⟩ "eve" "bar"
    ⟨exRow7, List.mem_cons_self _ _, rfl⟩

/-- Every table reachable by `insert_message` calls from a table satisfying
the year/month-consistency invariant still satisfies it. -/
theorem insertAll_consistent (ops : List InsertOp) :
    ∀ t : List Row, t.all rowConsistent = true →
      (insertAll t ops).all rowConsistent = true := by
  induction ops with
  | nil => intro t ht; simpa [insertAll] using ht
  | cons op ops ih =>
    intro t ht
    simp only [insertAll, List.foldl_cons] at *
    apply ih
    unfold insert_message
    split
    · exact ht
    · simp only [List.all_append, ht, Bool.true_and, List.all_cons, List.all_nil,
        Bool.and_true]
      simp [mkRow, rowConsistent]

/-- C8: after any sequence of insert operations starting from the empty
collection, every stored row's `year` and `month` columns equal the calendar
year and month of its `timestamp` column. -/
theorem claim_C8 (ops : List InsertOp) :
    (insertAll [] ops).all rowConsistent = true :=
  insertAll_consistent ops [] rfl

set_option maxRecDepth 8000 in
/-- C1 counterexample: in `exDB1` the only 2024-01 orphaner `alice` has
later activity in the `orphaned` collection itself (2024-06) but none in
`commits`, so the claim's own-collection survivorship gives 0 gone actors
while the code (`orphaners_gone`) reports 1: the code checks future
activity in `commits`, not in `orphaned`. -/
theorem claim_C1_counterexample :
    orphaners_gone exDB1 ⟨2024, 1, 1⟩ = some 1 ∧
    orphaners_gone_claim exDB1 ⟨2024, 1, 1⟩ = some 0 :=
  ⟨by decide, by decide⟩

/-- The filtered-length computed inside `orphaners_gone`/`committers_gone`
equals `gone_spec`, the count of bucket actors with no future event in the
`commits` collection. -/
theorem gone_filter_eq (db : DB) (month : Date) (coll : List Row) :
    (((coll.filter (monthFilter month)).map (fun r => r.actor)).dedup.filter
      (fun a => !((committers_in_future_months db month
        (((coll.filter (monthFilter month)).map
          (fun r => r.actor)).dedup)).contains a))).length
    = gone_spec db coll month := by
  unfold gone_spec committers_in_future_months
  congr 1
  apply List.filter_congr
  intro a ha
  congr 1
  rw [Bool.eq_iff_iff]
  simp only [List.elem_iff, List.mem_dedup, List.mem_map,
    List.mem_filter, List.any_eq_true, Bool.and_eq_true, beq_iff_eq]
  constructor
  · rintro ⟨r, ⟨hr, hcond⟩, hact⟩
    exact ⟨r, hr, hact, hcond.2⟩
  · rintro ⟨r, hr, hact, hts⟩
    refine ⟨r, ⟨hr, ?_, hts⟩, hact⟩
    rw [hact]
    have hm := List.mem_dedup.mp ha
    simpa [List.mem_map, List.mem_filter] using hm

/-- C1 amended: both survivorship metrics count the distinct bucket actors
of their own collection (`orphaned` resp. `commits`) that have zero
activity in the `commits` collection at or after `next_month(m)` — the
future-activity query is the same for both and always runs against
`commits`, not against the bucket's own collection. -/
theorem claim_C1_amended (db : DB) (month : Date) :
    orphaners_gone db month =
      (if get_months_left db month ≤ 3 then none
       else some (gone_spec db db.orphaned month)) ∧
    committers_gone db month =
      (if get_months_left db month ≤ 3 then none
       else some (gone_spec db db.commits month)) := by
  constructor
  · unfold orphaners_gone
    by_cases h : get_months_left db month ≤ 3
    · simp [h]
    · simp only [h, if_false, ite_false]
      rw [gone_filter_eq]
  · unfold committers_gone
    by_cases h : get_months_left db month ≤ 3
    · simp [h]
    · simp only [h, if_false, ite_false]
      rw [gone_filter_eq]

/-- Commit payload for the C2 counterexample: `dead.package` appears in the
change-statistics map with 0 additions and 0 deletions, branch `main`. -/
def exMsg2 : CommitMessage :=
  ⟨some ⟨some [("dead.package", ⟨0, 0⟩)], "main"⟩⟩

/-- C2 counterexample: a payload whose `dead.package` entry has addition
count 0 (and deletion count 0) on branch `main` is classified as a
retirement by the code, although the claim requires a nonzero addition
count for a true result. -/
theorem claim_C2_counterexample : is_retirement exMsg2 = true := by decide

/-- C2 amended: `is_retirement` returns true iff `dead.package` appears in
the change-statistics map, its counts are NOT (zero additions and nonzero
deletions), and the branch is `main` or `rawhide`; so an entry with zero
additions and zero deletions on a mainline branch also classifies as a
retirement; an absent file entry (or absent stats/commit object) yields
false without signaling failure. -/
theorem claim_C2_amended (message : CommitMessage) :
    is_retirement message = true ↔
      ∃ c files fs, message.commit = some c ∧ c.stats_files = some files ∧
        lookupDeadPackage files = some fs ∧
        ¬(fs.additions = 0 ∧ fs.deletions ≠ 0) ∧
        (c.branch = "main" ∨ c.branch = "rawhide") := by
  unfold is_retirement
  cases hc : message.commit with
  | none => simp
  | some c =>
    cases hf : c.stats_files with
    | none => simp [hf]
    | some files =>
      cases hd : lookupDeadPackage files with
      | none => simp [hf, hd]
      | some fs =>
        simp only [hf, hd, Option.some.injEq]
        by_cases hb : fs.additions == 0 && fs.deletions != 0
        · simp only [hb, if_true]
          constructor
          · intro hfalse; exact absurd hfalse (by simp)
          · rintro ⟨c1, f1, s1, hc1, hf1, hd1, hnot, hbr⟩
            cases hc1
            rw [hf] at hf1; cases hf1
            rw [hd] at hd1; cases hd1
            exfalso
            apply hnot
            simpa [Bool.and_eq_true, beq_iff_eq, bne_iff_ne] using hb
        · simp only [hb, if_false]
          by_cases hbr : c.branch == "main" || c.branch == "rawhide"
          · simp only [hbr, Bool.not_true, if_false]
            constructor
            · intro _
              refine ⟨c, files, fs, rfl, hf, hd, ?_, ?_⟩
              · intro hcon
                apply hb
                simp [Bool.and_eq_true, beq_iff_eq, bne_iff_ne, hcon.1, hcon.2]
              · simpa [Bool.or_eq_true, beq_iff_eq] using hbr
            · intro _; rfl
          · simp only [hbr, Bool.not_false, if_true]
            constructor
            · intro hfalse; exact absurd hfalse (by simp)
            · rintro ⟨c1, f1, s1, hc1, hf1, hd1, hnot, hbrr⟩
              cases hc1
              rw [hf] at hf1; cases hf1
              exfalso
              apply hbr
              simpa [Bool.or_eq_true, beq_iff_eq] using hbrr

/-- C3 counterexample: in `exDB3` the only adoption sample pairs the
2024-03-05 adoption of `foo` with its chronologically later 2024-03-20
orphan event (same bucket, so the month-truncated match qualifies), giving
a present adoption latency of -15 days — a negative value, so the present
value is not a mean of nonnegative day counts as the claim states. -/
theorem claim_C3_counterexample :
    adoption exDB3 ⟨2024, 3, 1⟩ = some (-15) ∧ ((-15 : Rat) < 0) := by
  have ht : adoption_times exDB3 ⟨2024, 3, 1⟩ = [-15] := by decide
  constructor
  · unfold adoption
    rw [ht]
    norm_num
  · norm_num

/-- The sample list built by `adoption`'s loop equals the claim-side
`filterMap` formulation of the samples. -/
theorem adoption_times_eq_spec (db : DB) (month : Date) :
    adoption_times db month = adoption_samples_spec db month := by
  unfold adoption_times adoption_samples_spec
  generalize ((db.adopted.filter (monthFilter month)).map
    (fun r => (r.package, r.ts))).dedup = pairs
  suffices h : ∀ acc : List Int,
      pairs.foldl
        (fun acc pt =>
          match chooseMaxBucket (db.orphaned.filter (orphanCandidate month pt.1)) with
          | none => acc
          | some o => acc ++ [daysBetween pt.2 o.ts]) acc
        = acc ++ pairs.filterMap
          (fun pt =>
            (chooseMaxBucket (db.orphaned.filter (orphanCandidate month pt.1))).map
              (fun o => daysBetween pt.2 o.ts)) by
    simpa using h []
  induction pairs with
  | nil => intro acc; simp
  | cons x xs ih =>
    intro acc
    simp only [List.foldl_cons, List.filterMap_cons]
    cases hg : chooseMaxBucket (db.orphaned.filter (orphanCandidate month x.1)) with
    | none => simp [hg, ih]
    | some o => simp [hg, ih]

/-- C3 amended: `adoption_latency(m)` is absent exactly when no distinct
(package, timestamp) pair adopted in bucket m has a qualifying prior-or-
equal-bucket orphan event, and otherwise equals the arithmetic mean of the
whole-day spans (adoption timestamp minus matched orphan timestamp), where
the matched orphan is the latest-bucket qualifying orphan event and the
spans may be negative when the matched orphan is chronologically later than
the adoption. -/
theorem claim_C3_amended (db : DB) (month : Date) :
    adoption db month = adoption_latency_spec db month := by
  unfold adoption adoption_latency_spec
  rw [adoption_times_eq_spec]
  cases h : adoption_samples_spec db month with
  | nil => simp
  | cons a l => simp

/-- C4 counterexample: in `exDB4` exactly 4 calendar months of commit data
exist strictly after 2024-01 — not fewer than 4 — yet both survivorship
metrics return the absent value for 2024-01, because `_get_months_left`
subtracts 1 from a count in which month 2024-01 itself (having no commits)
never appeared. -/
theorem claim_C4_counterexample :
    months_of_data_after exDB4 ⟨2024, 1, 1⟩ = 4 ∧
    orphaners_gone exDB4 ⟨2024, 1, 1⟩ = none ∧
    committers_gone exDB4 ⟨2024, 1, 1⟩ = none :=
  ⟨by decide, by decide, by decide⟩

/-- C4 amended: the survivorship metrics return a (nonnegative) count
exactly when `get_months_left` — the number of distinct (year, month)
commit buckets holding a commit timestamped on or after the first day of
m, minus one — exceeds 3, and the absent value otherwise; this coincides
with "more than 3 calendar months of data strictly after m" only when
month m itself has commit data. -/
theorem claim_C4_amended (db : DB) (month : Date) :
    ((orphaners_gone db month).isSome = true ↔ 3 < get_months_left db month) ∧
    ((committers_gone db month).isSome = true ↔ 3 < get_months_left db month) := by
  constructor
  · unfold orphaners_gone
    by_cases h : get_months_left db month ≤ 3
    · simp [h]
    · simp [h]; omega
  · unfold committers_gone
    by_cases h : get_months_left db month ≤ 3
    · simp [h]
    · simp [h]; omega

/-- C5 counterexample: in `exDB5` the adoption latency of bucket 2024-02 is
present and equal to 0 (same-instant orphan and adoption), yet the report
renders it as the empty field: the emitter tests Python truthiness
(`if avg_adoption_time`), which coerces a present 0 to blank. -/
theorem claim_C5_counterexample :
    adoption exDB5 ⟨2024, 2, 1⟩ = some 0 ∧
    formatLatency (adoption exDB5 ⟨2024, 2, 1⟩) = "" := by
  have ht : adoption_times exDB5 ⟨2024, 2, 1⟩ = [0] := by decide
  have ha : adoption exDB5 ⟨2024, 2, 1⟩ = some 0 := by
    unfold adoption
    rw [ht]
    norm_num
  exact ⟨ha, by rw [ha]; decide⟩

/-- C5 amended: absent statistics render as the empty field; a present
survivorship count renders as its numeral; a present adoption-latency mean
renders with exactly two decimal places when it is nonzero, but a present
mean equal to 0 is also rendered as the empty field (Python truthiness),
so presence alone does not guarantee a nonblank cell. -/
theorem claim_C5_amended :
    formatLatency none = "" ∧ formatGone none = "" ∧
    (∀ q : Rat, q ≠ 0 → formatLatency (some q) = formatTwoDec q) ∧
    formatLatency (some 0) = "" ∧
    (∀ n : Nat, formatGone (some n) = toString n) := by
  refine ⟨rfl, rfl, ?_, rfl, fun n => rfl⟩
  intro q hq
  have hdef : formatLatency (some q) =
      if (q == 0) = true then "" else formatTwoDec q := rfl
  rw [hdef, if_neg (by simp [hq])]

/-- Witness for the C5 amended theorem at the concrete present value 55. -/
theorem claim_C5_amended_witness :
    formatLatency (some (55 : Rat)) = formatTwoDec 55 :=
  claim_C5_amended.2.2.1 55 (by norm_num)

/-- C10 counterexample: in `exDB10` bucket 2024-01 has no `orphaned` actors
and the lookahead guard passes, yet `orphaners_gone` returns the count 0
rather than failing: SQLite accepts the empty `IN ()` list (it matches no
row), so the future-activity query succeeds with an empty result. -/
theorem claim_C10_counterexample :
    orphaners_gone exDB10 ⟨2024, 1, 1⟩ = some 0 := by decide

/-- C10 amended: for every month that passes the lookahead guard, each
metric for which bucket m holds zero actors in its queried collection
returns the count 0 (not a database error): the empty `IN ()` membership
list is legal in SQLite and matches nothing, so the set difference is
empty.  The two conclusions are independent: each needs only its own
bucket to be empty. -/
theorem claim_C10_amended (db : DB) (month : Date)
    (hg : 3 < get_months_left db month) :
    (db.orphaned.filter (monthFilter month) = [] →
      orphaners_gone db month = some 0) ∧
    (db.commits.filter (monthFilter month) = [] →
      committers_gone db month = some 0) := by
  constructor
  · intro ho
    unfold orphaners_gone
    rw [ho, if_neg (by omega)]
    simp
  · intro hc
    unfold committers_gone
    rw [hc, if_neg (by omega)]
    simp

/-- Store for the typical C10 case: bucket 2024-01 has commit activity but
no `orphaned` actors, and six months of commit data pass the guard. -/
def exDB10w : DB :=
  { commits :=
      [⟨"c1", ⟨⟨2024, 1, 15⟩, 0⟩, 2024, 1, "bob", "p"⟩,
       ⟨"c2", ⟨⟨2024, 2, 15⟩, 0⟩, 2024, 2, "bob", "p"⟩,
       ⟨"c3", ⟨⟨2024, 3, 15⟩, 0⟩, 2024, 3, "bob", "p"⟩,
       ⟨"c4", ⟨⟨2024, 4, 15⟩, 0⟩, 2024, 4, "bob", "p"⟩,
       ⟨"c5", ⟨⟨2024, 5, 15⟩, 0⟩, 2024, 5, "bob", "p"⟩,
       ⟨"c6", ⟨⟨2024, 6, 15⟩, 0⟩, 2024, 6, "bob", "p"⟩],
    orphaned := [], adopted := [], retired := [] }

/-- Witness for the C10 amended theorem: both conclusions at `exDB10`
(every hypothesis discharged concretely), and the per-metric first
conclusion at `exDB10w`, a month whose `commits` bucket is nonempty while
its `orphaned` bucket is empty. -/
theorem claim_C10_amended_witness :
    (orphaners_gone exDB10 ⟨2024, 1, 1⟩ = some 0 ∧
     committers_gone exDB10 ⟨2024, 1, 1⟩ = some 0) ∧
    orphaners_gone exDB10w ⟨2024, 1, 1⟩ = some 0 :=
  ⟨⟨(claim_C10_amended exDB10 ⟨2024, 1, 1⟩ (by decide)).1 (by decide),
    (claim_C10_amended exDB10 ⟨2024, 1, 1⟩ (by decide)).2 (by decide)⟩,
   (claim_C10_amended exDB10w ⟨2024, 1, 1⟩ (by decide)).1 (by decide)⟩

